import Mathlib

/-!
# Optimizarr core — shallow embedding and verification

This file embeds the core job-lifecycle engine of the Optimizarr media
transcoding orchestrator in Lean 4 and settles the frozen claims about it.

The embedding follows the Python source under `app/`:

* `app/scanner.py`  — `MediaScanner` (probing, candidate discovery, the
  needs-encoding predicate, savings estimation, `scan_root`);
* `app/watcher.py`  — `FolderWatcher` (`_scan_directory`, `_queue_new_files`);
* `app/scheduler.py` — `ScheduleManager.is_within_schedule`;
* `app/encoder.py`  — `EncodingJob` (status transitions, `_finalize_encoding`);
* `app/database.py` — the `queue` table schema and `Database.add_to_queue`.

Modelling conventions:

* Python dicts that carry media specifications become structures; keys read
  with `.get(key, default)` become total fields with the default applied at
  construction, keys read with `.get(key)` (default `None`) become `Option`s.
* Filesystem and subprocess effects are inputs: probe results, permission
  results, file sizes and I/O faults are passed in explicitly, so every
  definition is executable.
* Timestamps are abstract `Nat` instants; `time.strftime (...)` is modelled
  as the current instant.
* Machine floats appear only in `int(file_size * fraction)` inside
  `_estimate_savings`; this is modelled as exact rational scaling truncated
  to an integer (`size * pct / 100` on `Nat`), which agrees with the IEEE
  double computation for every realistic file size (below 2^50 bytes).
-/

namespace Optimizarr

/-- One audio stream as reported by a probe (`_parse_ffprobe_json` /
`_parse_handbrake_json` build dicts with at least codec and language). -/
structure AudioTrack where
  codec : String
  language : String
deriving Repr, DecidableEq

/-- A probe result (`current_specs`): the dict shape produced by
`MediaScanner._parse_ffprobe_json`, `_parse_handbrake_json` and
`_get_basic_file_info`.  Fields read via `.get(key, default)` in the source
are total here, with the default meaning baked into the value. -/
structure Specs where
  codec : String
  resolution : String
  framerate : ℚ
  audio_tracks : List AudioTrack
deriving Repr, DecidableEq

/-- Target specifications (`target_specs`) as built by `scan_root` /
`_queue_new_files` from a profile row.  `needs_encoding` reads `codec` and
`resolution` with `.get` (default `None`), so both are `Option`s; a profile
row can hold SQL `NULL` (`none`) or an empty string for `resolution`. -/
structure TargetSpecs where
  codec : Option String
  resolution : Option String
deriving Repr, DecidableEq

/-- Python truthiness of an optional string: `None` and `''` are falsy. -/
def pyTruthy : Option String → Bool
  | none => false
  | some s => s ≠ ""

/-- `MediaScanner._needs_encoding` (app/scanner.py:300-312), line by line:

```
current_codec = current_specs.get('codec', 'unknown')
if current_codec == 'unknown': return True
target_codec = target_specs.get('codec')
if target_codec and current_codec != target_codec: return True
target_res = target_specs.get('resolution')
if target_res and target_res not in ('', 'preserve', None):
    current_res = current_specs.get('resolution', 'unknown')
    if current_res != 'unknown' and current_res != target_res: return True
return False
```
-/
def needs_encoding (current : Specs) (target : TargetSpecs) : Bool :=
  if current.codec = "unknown" then true
  else if pyTruthy target.codec && (current.codec ≠ target.codec.getD "") then true
  else if pyTruthy target.resolution && (target.resolution.getD "" ≠ "preserve") then
    if current.resolution ≠ "unknown" && current.resolution ≠ target.resolution.getD ""
    then true else false
  else false

/-- `MediaScanner._estimate_savings` (app/scanner.py:291-298).  The Python
`int(file_size * 0.50)` etc. is modelled as exact truncated scaling
(`file_size * pct / 100` in `Nat`); see the header note on floats. -/
def estimate_savings (file_size : Nat) (current_codec target_codec : String) : Nat :=
  if target_codec = "av1" && !(["av1"].contains current_codec) then
    file_size * 50 / 100
  else if target_codec = "h265" &&
      ["h264", "mpeg4", "mpeg2", "xvid", "wmv"].contains current_codec then
    file_size * 40 / 100
  else if target_codec = "h264" &&
      ["mpeg4", "mpeg2", "wmv"].contains current_codec then
    file_size * 30 / 100
  else 0

/-- `MediaScanner.VIDEO_EXTENSIONS` (app/scanner.py:20). -/
def VIDEO_EXTENSIONS : List String :=
  [".mp4", ".mkv", ".avi", ".mov", ".m4v", ".ts", ".mpg", ".mpeg", ".wmv", ".flv", ".webm"]

/-- Python `str.lower()`, character by character (extensions are ASCII). -/
def strToLower (s : String) : String := ⟨s.data.map Char.toLower⟩

/-- A regular file, split the way `pathlib.Path` splits a name: `stem` is the
name without the final extension, `suffix` is the final extension with its
dot.  Directory components play no role in the claims and are elided; a
file's path string is `stem ++ suffix`. -/
structure MediaFile where
  stem : String
  suffix : String
deriving Repr, DecidableEq

/-- The path string of a file (see `MediaFile`). -/
def MediaFile.path (f : MediaFile) : String := f.stem ++ f.suffix

/-- `MediaScanner.discover_video_files` (app/scanner.py:39-55): keep every
regular file whose lowercased suffix is in `VIDEO_EXTENSIONS`.  The input
list stands for the `rglob`/`glob` enumeration (already restricted to
regular files); the final `sorted(...)` only permutes the output and is
elided.  Note the source applies no other filter — in particular nothing
excludes `*_optimized.*` names here. -/
def discover_video_files (files : List MediaFile) : List MediaFile :=
  files.filter (fun f => VIDEO_EXTENSIONS.contains (strToLower f.suffix))

/-- `MediaScanner._get_basic_file_info` (app/scanner.py:227-232): the record
returned when every probe strategy has failed.  (Its `file_size` key is not
part of `Specs`; no claim reads it.) -/
def get_basic_file_info : Specs :=
  { codec := "unknown", resolution := "unknown", framerate := 0, audio_tracks := [] }

/-- `MediaScanner.analyze_file` (app/scanner.py:57-67).  The two probe
strategies are inputs: `ffAvail` / `hbAvail` mirror `self.ffprobe_available`
/ `self.handbrake_available`, and `ffRes` / `hbRes` are the values of
`_probe_with_ffprobe` / `_probe_with_handbrake` for this path (`none` when
the subprocess failed).  The source:

```
if self.ffprobe_available:
    result = self._probe_with_ffprobe(file_path)
    if result and result.get('codec', 'unknown') != 'unknown': return result
if self.handbrake_available:
    result = self._probe_with_handbrake(file_path)
    if result: return result
return self._get_basic_file_info(file_path)
```
-/
def analyze_file (ffAvail : Bool) (ffRes : Option Specs)
    (hbAvail : Bool) (hbRes : Option Specs) : Option Specs :=
  match (if ffAvail then ffRes else none) with
  | some r =>
    if r.codec ≠ "unknown" then some r
    else
      match (if hbAvail then hbRes else none) with
      | some r2 => some r2
      | none => some get_basic_file_info
  | none =>
    match (if hbAvail then hbRes else none) with
    | some r2 => some r2
    | none => some get_basic_file_info

/-! ## Persistence: the `queue` table (app/database.py) -/

/-- One row of the `queue` table (app/database.py:85-110).  Columns the
claims never read (specs JSON, priority, resource samples, …) are kept only
where a transition writes them.  `Option` fields are nullable columns. -/
structure QueueItem where
  id : Nat
  file_path : String
  status : String
  progress : ℚ
  error_message : Option String
  paused_reason : Option String
  permission_status : Option String
  started_at : Option Nat
  completed_at : Option Nat
  current_cpu_percent : ℚ
  current_memory_mb : ℚ
  file_size_bytes : Nat
  estimated_savings_bytes : Nat
deriving Repr, DecidableEq

/-- The non-terminal queue statuses of the data model: every status other
than `completed` and `failed`. -/
def nonTerminalStatuses : List String :=
  ["pending", "processing", "paused", "permission_error"]

/-- The `CREATE TABLE queue` statement (app/database.py:85-110) declares
`file_path TEXT NOT NULL` with no `UNIQUE` constraint; only `id` is a
primary key.  This flag records that schema fact for `add_to_queue`. -/
def queue_file_path_unique : Bool := false

/-- A fresh row as `Database.add_to_queue` inserts it: the given path and
status, everything else at the column defaults
(`progress REAL DEFAULT 0.0`, nullable timestamps `NULL`, …). -/
def mkQueueRow (id : Nat) (file_path status : String)
    (file_size_bytes estimated_savings_bytes : Nat) : QueueItem :=
  { id := id, file_path := file_path, status := status, progress := 0,
    error_message := none, paused_reason := none, permission_status := none,
    started_at := none, completed_at := none,
    current_cpu_percent := 0, current_memory_mb := 0,
    file_size_bytes := file_size_bytes,
    estimated_savings_bytes := estimated_savings_bytes }

/-- `AUTOINCREMENT` id for the next inserted row. -/
def nextId (table : List QueueItem) : Nat :=
  (table.map QueueItem.id).foldl max 0 + 1

/-- `Database.add_to_queue` (app/database.py:519-540).  The mutator runs a
plain `INSERT INTO queue (...)`; SQLite enforces only the declared schema:
`file_path` must not be `NULL`, and a duplicate-path error could arise only
if `queue_file_path_unique` were true — which it is not.  No deduplication
of any kind happens here. -/
def add_to_queue (table : List QueueItem) (file_path : Option String)
    (status : String) (file_size_bytes estimated_savings_bytes : Nat) :
    Except String (List QueueItem) :=
  match file_path with
  | none => .error "NOT NULL constraint failed: queue.file_path"
  | some p =>
    if queue_file_path_unique && table.any (fun r => r.file_path = p) then
      .error "UNIQUE constraint failed: queue.file_path"
    else
      .ok (table ++ [mkQueueRow (nextId table) p status
        file_size_bytes estimated_savings_bytes])

/-! ## Scan pipeline: `MediaScanner.scan_root` (app/scanner.py:244-289) -/

/-- The profile columns the scan pipeline reads (`profiles` table,
app/database.py:47-69): `codec TEXT NOT NULL` is total, `resolution TEXT`
is nullable. -/
structure Profile where
  codec : String
  resolution : Option String
  framerate : Option ℚ
  audio_codec : String
deriving Repr, DecidableEq

/-- The `target_specs` dict that `scan_root` (app/scanner.py:269-274) and
`FolderWatcher._queue_new_files` (app/watcher.py:141-145) build from a
profile row.  Only the `codec` and `resolution` keys are ever read back
(by `_needs_encoding` and `_estimate_savings`); `framerate` / `audio_codec`
are stored but unread and are elided from `TargetSpecs`. -/
def targetSpecsOf (profile : Profile) : TargetSpecs :=
  { codec := some profile.codec, resolution := profile.resolution }

/-- The filesystem / probing environment a scan runs against: for each path
its permission triage (`check_file_permissions`, app/scanner.py:234-242,
one of ok / no_read / no_write / not_found), its `analyze_file` value,
and its `stat().st_size`. -/
structure FileEnv where
  perm : String → String
  probe : String → Option Specs
  size : String → Nat

/-- The per-candidate body of the `scan_root` loop (app/scanner.py:261-287):

```
existing = db.get_queue_items()
if any(item['file_path'] == file_path for item in existing): continue
perm_status, _ = self.check_file_permissions(file_path)
current_specs = self.analyze_file(file_path)
if not current_specs: continue
target_specs = {...from profile...}
if not self._needs_encoding(current_specs, target_specs): continue
file_size = Path(file_path).stat().st_size
savings = self._estimate_savings(file_size, current_specs.get('codec','unknown'),
                                 target_specs.get('codec','unknown'))
db.add_to_queue(file_path=..., status='pending' if perm_status == 'ok'
                else 'permission_error', ...)
added_count += 1
```

The accumulator carries the queue table (re-read fresh from the database on
every iteration in the source) and `added_count`. -/
def scan_process_file (env : FileEnv) (profile : Profile)
    (acc : List QueueItem × Nat) (path : String) : List QueueItem × Nat :=
  let (queue, count) := acc
  if queue.any (fun item => item.file_path = path) then acc
  else
    let perm_status := env.perm path
    match env.probe path with
    | none => acc
    | some current_specs =>
      if ¬ needs_encoding current_specs (targetSpecsOf profile) then acc
      else
        let file_size := env.size path
        let savings := estimate_savings file_size current_specs.codec profile.codec
        match add_to_queue queue (some path)
            (if perm_status = "ok" then "pending" else "permission_error")
            file_size savings with
        | .ok table => (table, count + 1)
        | .error _ => acc -- unreachable: the path is present and no unique constraint exists

/-- `MediaScanner.scan_root` (app/scanner.py:244-289) after the root row has
been loaded: return `(queue, 0)` when the root is disabled or its profile is
missing, otherwise run the per-candidate body over
`discover_video_files`.  The root lookup itself and logging are elided. -/
def scan_root (env : FileEnv) (enabled : Bool) (profile : Option Profile)
    (files : List MediaFile) (queue : List QueueItem) : List QueueItem × Nat :=
  if ¬ enabled then (queue, 0)
  else
    match profile with
    | none => (queue, 0)
    | some prof =>
      (discover_video_files files).foldl
        (fun acc f => scan_process_file env prof acc f.path) (queue, 0)

/-! ## Folder watcher (app/watcher.py) -/

/-- `needle.isPrefixOf` at some position of the list: the Python substring
test `needle in hay`. -/
def listContainsSub {α : Type} [BEq α] (needle : List α) : List α → Bool
  | [] => needle.isEmpty
  | x :: xs => needle.isPrefixOf (x :: xs) || listContainsSub needle xs

/-- Python `needle in hay` on strings. -/
def strContainsSub (hay needle : String) : Bool :=
  listContainsSub needle.toList hay.toList

/-- `FolderWatcher._scan_directory` (app/watcher.py:102-126): keep regular
files whose lowercased suffix is in the watch extension set AND whose stem
does not contain `_optimized` (the system output skip rule — present here,
but absent from `MediaScanner.discover_video_files`). -/
def watcher_scan_directory (files : List MediaFile) (extensions : List String) :
    List MediaFile :=
  files.filter (fun f =>
    extensions.contains (strToLower f.suffix) && !(strContainsSub f.stem "_optimized"))

/-- The parameter names of `MediaScanner._estimate_savings`
(app/scanner.py:291): `self` excluded, it accepts exactly `file_size`,
`current_codec` and `target_codec`, and no `**kwargs`. -/
def estimate_savings_params : List String :=
  ["file_size", "current_codec", "target_codec"]

/-- Python keyword-argument binding: a call raises `TypeError` when a
keyword name is not among the parameters of the callee (no `**kwargs`). -/
def pyKeywordsAccepted (params kwNames : List String) : Bool :=
  kwNames.all params.contains

/-- The call `media_scanner._estimate_savings(file_size, codec, target,
current_specs=current_specs)` made by `FolderWatcher._queue_new_files`
(app/watcher.py:161-166): the keyword `current_specs` is not a parameter of
`_estimate_savings`, so Python raises `TypeError` before the body runs. -/
def watcher_call_estimate_savings (file_size : Nat)
    (current_codec target_codec : String) : Except String Nat :=
  if pyKeywordsAccepted estimate_savings_params ["current_specs"] then
    .ok (estimate_savings file_size current_codec target_codec)
  else
    .error "TypeError: _estimate_savings got an unexpected keyword argument current_specs"

/-- The environment of one `_queue_new_files` run: the profile row of the
watch (`db.get_profile`), and per path the `os.path.getsize` outcome (an
`OSError` is caught by the per-file handler), the `analyze_file` value and
the permission triage. -/
structure WatcherEnv where
  profile : Option Profile
  size : String → Except String Nat
  probe : String → Option Specs
  perm : String → String

/-- The per-file body of `FolderWatcher._queue_new_files`
(app/watcher.py:148-201).  Everything inside the `try` runs under a
per-file `except Exception` that logs and moves on:

```
if file_path in queued_paths: continue
try:
    file_size = os.path.getsize(file_path)
    current_specs = media_scanner.analyze_file(file_path) or {}
    if current_specs and not media_scanner._needs_encoding(current_specs, target_specs):
        continue
    perm_status, _ = media_scanner.check_file_permissions(file_path)
    savings = media_scanner._estimate_savings(file_size, ..., current_specs=current_specs)
    ... upscale-plan lookup ...
    db.add_to_queue(...)
    queued_count += 1
except Exception as e:
    logger.error("Failed to queue %s: %s", file_path, e)
```

The savings call raises `TypeError` (see `watcher_call_estimate_savings`),
so the upscale-plan block and the insert after it are unreachable; they are
modelled faithfully as following the savings call. -/
def watcher_queue_one_file (env : WatcherEnv) (profile : Profile)
    (queued_paths : List String) (acc : List QueueItem × Nat) (path : String) :
    List QueueItem × Nat :=
  let (queue, count) := acc
  if queued_paths.contains path then acc
  else
    match env.size path with
    | .error _ => acc
    | .ok file_size =>
      let current_specs := (env.probe path).getD get_basic_file_info
      if ¬ needs_encoding current_specs (targetSpecsOf profile) then acc
      else
        let perm_status := env.perm path
        match watcher_call_estimate_savings file_size current_specs.codec profile.codec with
        | .error _ => acc -- TypeError caught by the per-file handler
        | .ok savings =>
          match add_to_queue queue (some path)
              (if perm_status = "ok" then "pending" else "permission_error")
              file_size savings with
          | .ok table => (table, count + 1)
          | .error _ => acc

/-- `FolderWatcher._queue_new_files` (app/watcher.py:128-206): snapshot the
queued paths, look up the watch profile (return queueing nothing when it is
missing), then run the per-file body over the new paths in sorted order
(the sort only permutes the iteration and is elided). -/
def queue_new_files (env : WatcherEnv) (queue : List QueueItem)
    (new_files : List String) : List QueueItem × Nat :=
  let queued_paths := queue.map QueueItem.file_path
  match env.profile with
  | none => (queue, 0)
  | some profile =>
    new_files.foldl (watcher_queue_one_file env profile queued_paths) (queue, 0)

/-! ## Scheduler: `ScheduleManager.is_within_schedule` (app/scheduler.py:163-206) -/

/-- The loaded schedule row (`ScheduleManager.load_schedule`,
app/scheduler.py:59-67), with `days_of_week` already split into integers
and `start_time` / `end_time` already parsed from `HH:MM` (the source
returns `False` on a parse failure; the claims quantify over parsed
configurations).  Hours and minutes are the `datetime.time` components. -/
structure ScheduleConfig where
  enabled : Bool
  days : List Nat
  startH : Nat
  startM : Nat
  endH : Nat
  endM : Nat
  use_windows_rest_hours : Bool
deriving Repr, DecidableEq

/-- Seconds after midnight of a `datetime.time(h, m)` value; comparing two
`datetime.time` values is comparing their seconds counts. -/
def timeSec (h m : Nat) : Nat := h * 3600 + m * 60

/-- The effective `(start, end)` window in seconds after midnight
(app/scheduler.py:179-199): when `use_windows_rest_hours` is set and the
host reports active hours `(activeStart, activeEnd)` (whole hours read from
the registry), the window is the complement `activeEnd → activeStart`;
otherwise the configured start/end times. -/
def effectiveWindow (cfg : ScheduleConfig) (winActive : Option (Nat × Nat)) :
    Nat × Nat :=
  if cfg.use_windows_rest_hours then
    match winActive with
    | some (activeStart, activeEnd) => (timeSec activeEnd 0, timeSec activeStart 0)
    | none => (timeSec cfg.startH cfg.startM, timeSec cfg.endH cfg.endM)
  else
    (timeSec cfg.startH cfg.startM, timeSec cfg.endH cfg.endM)

/-- `ScheduleManager.is_within_schedule` (app/scheduler.py:163-206):

```
if not self.is_enabled or not self.schedule_config: return False
current_day = now.weekday()
if current_day not in scheduled_days: return False
... resolve start_t, end_t (Windows rest hours or config) ...
if start_t <= end_t: return start_t <= current_t <= end_t
else: return current_t >= start_t or current_t <= end_t
```

`weekday` is the current weekday (0 = Monday), `nowSec` the current
time-of-day in seconds after midnight. -/
def is_within_schedule (cfg : ScheduleConfig) (winActive : Option (Nat × Nat))
    (weekday : Nat) (nowSec : Nat) : Bool :=
  if ¬ cfg.enabled then false
  else if ¬ cfg.days.contains weekday then false
  else
    let se := effectiveWindow cfg winActive
    if se.1 ≤ se.2 then decide (se.1 ≤ nowSec ∧ nowSec ≤ se.2)
    else decide (nowSec ≥ se.1 ∨ nowSec ≤ se.2)

/-- The window-membership property as the specification words it: enabled,
today is a configured day, and the instant lies in the resolved window —
`start ≤ now ≤ end` for a same-day window, `now ≥ start ∨ now ≤ end` for a
window spanning midnight. -/
def withinWindowSpec (enabled : Bool) (days : List Nat) (s e : Nat)
    (weekday nowSec : Nat) : Prop :=
  enabled = true ∧ weekday ∈ days ∧
    ((s ≤ e ∧ s ≤ nowSec ∧ nowSec ≤ e) ∨ (e < s ∧ (nowSec ≥ s ∨ nowSec ≤ e)))

/-! ## Encoder supervisor: `EncodingJob` (app/encoder.py) -/

/-- Every `db.update_queue_item` call the encoder supervisor makes, one
constructor per call site in app/encoder.py (`update_queue_item` writes
exactly the keyword arguments given and nothing else):

* `startProcessing`      — `start`, line 335: `status='processing', started_at=now`
* `progressUpdate`       — `start`, line 383: `progress=p`
* `nonZeroExit`          — `start`, line 406: `status='failed', error_message=...`
* `startException`       — `start`, line 416: `status='failed', error_message=str(e)`
* `resourceSample`       — `_monitor_resources`, line 321: cpu / memory fields
* `finalizeOutputMissing`— `_finalize_encoding`, line 436: `status='failed',
  error_message='Output file not found'`
* `finalizeSuccess`      — `_finalize_encoding`, line 462: `status='completed',
  progress=100.0, completed_at=now`
* `finalizeError`        — `_finalize_encoding`, line 495: `status='failed',
  error_message='Finalization error: ...'`
* `pauseJob`             — `pause`, line 509: `status='paused', paused_reason=r`
* `resumeJob`            — `resume`, line 527: `status='processing', paused_reason=None`
* `manualStop`           — `stop`, line 549: `status='failed',
  error_message='Manually stopped'`
-/
inductive EngineTransition where
  | startProcessing (now : Nat)
  | progressUpdate (p : ℚ)
  | nonZeroExit (code : Int)
  | startException (msg : String)
  | resourceSample (cpu mem : ℚ)
  | finalizeOutputMissing
  | finalizeSuccess (now : Nat)
  | finalizeError (msg : String)
  | pauseJob (reason : Option String)
  | resumeJob
  | manualStop
deriving Repr, DecidableEq

/-- Apply one supervisor transition to a queue row: the partial `UPDATE`
that `db.update_queue_item` performs for that call site (only the keyword
arguments passed at the call site change). -/
def applyTransition (item : QueueItem) : EngineTransition → QueueItem
  | .startProcessing now =>
    { item with status := "processing", started_at := some now }
  | .progressUpdate p => { item with progress := p }
  | .nonZeroExit code =>
    { item with status := "failed",
                error_message := some ("HandBrakeCLI exited with code " ++ toString code) }
  | .startException msg =>
    { item with status := "failed", error_message := some msg }
  | .resourceSample cpu mem =>
    { item with current_cpu_percent := cpu, current_memory_mb := mem }
  | .finalizeOutputMissing =>
    { item with status := "failed", error_message := some "Output file not found" }
  | .finalizeSuccess now =>
    { item with status := "completed", progress := 100, completed_at := some now }
  | .finalizeError msg =>
    { item with status := "failed",
                error_message := some ("Finalization error: " ++ msg) }
  | .pauseJob reason => { item with status := "paused", paused_reason := reason }
  | .resumeJob => { item with status := "processing", paused_reason := none }
  | .manualStop =>
    { item with status := "failed", error_message := some "Manually stopped" }

/-- The transitions that mark a job failed (transcoder non-zero exit,
exception during the run, finalise failures, manual stop). -/
def isFailureTransition : EngineTransition → Bool
  | .nonZeroExit _ => true
  | .startException _ => true
  | .finalizeOutputMissing => true
  | .finalizeError _ => true
  | .manualStop => true
  | _ => false

/-- The `completed_at ⇔ terminal status` invariant the specification states
for queue rows. -/
def completedAtInvariant (item : QueueItem) : Prop :=
  item.completed_at.isSome = true ↔ item.status ∈ ["completed", "failed"]

/-- The filesystem outcomes one `_finalize_encoding` attempt can hit: does
the `_optimized` output exist, and does each fallible step raise
(`some msg` = the exception raised at that step). -/
structure FinalizeEnv where
  outputExists : Bool
  unlinkError : Option String
  renameError : Option String
  historyError : Option String
  now : Nat
deriving Repr, DecidableEq

/-- The result of a finalise attempt: the queue row after the attempt, and
whether the original input file still exists / a history row was written. -/
structure FinalizeResult where
  item : QueueItem
  originalExists : Bool
  historyWritten : Bool
deriving Repr, DecidableEq

/-- `EncodingJob._finalize_encoding` (app/encoder.py:423-499):

```
output_path = input_path.parent / (input_path.stem + '_optimized' + output_ext)
if not output_path.exists():
    db.update_queue_item(..., status='failed', error_message='Output file not found')
    return
original_size = ...; new_size = ...
try:
    input_path.unlink()                          # delete the original
    final_path = input_path.parent / (input_path.stem + output_ext)
    output_path.rename(final_path)               # move output into place
    db.update_queue_item(..., status='completed', progress=100.0, completed_at=now)
    cursor.execute('INSERT INTO history ...')    # write the history row
except Exception as e:
    db.update_queue_item(..., status='failed',
                         error_message='Finalization error: ' + str(e))
```

The original input file exists at entry (the job just transcoded it); it
stops existing exactly when `unlink` completes without raising.  A step
whose `FinalizeEnv` error is `some msg` raises, jumping to the `except`
handler. -/
def finalize_encoding (env : FinalizeEnv) (item : QueueItem) : FinalizeResult :=
  if ¬ env.outputExists then
    { item := applyTransition item .finalizeOutputMissing,
      originalExists := true, historyWritten := false }
  else
    match env.unlinkError with
    | some msg =>
      { item := applyTransition item (.finalizeError msg),
        originalExists := true, historyWritten := false }
    | none =>
      match env.renameError with
      | some msg =>
        { item := applyTransition item (.finalizeError msg),
          originalExists := false, historyWritten := false }
      | none =>
        let completed := applyTransition item (.finalizeSuccess env.now)
        match env.historyError with
        | some msg =>
          { item := applyTransition completed (.finalizeError msg),
            originalExists := false, historyWritten := false }
        | none =>
          { item := completed, originalExists := false, historyWritten := true }

/-! ## Specification-side definitions

These restate claim properties in the words of the specification, to be
compared against the definitions embedded from the source above. -/

/-- The needs-encoding rule set as the specification words it: true iff the
current codec is unknown, or the target codec is set and differs from the
current codec, or the target resolution is non-empty and the current
resolution is known and differs from it. -/
def needsEncodingClaim (current : Specs) (target : TargetSpecs) : Bool :=
  (current.codec = "unknown") ||
  (match target.codec with
   | some tc => current.codec ≠ tc
   | none => false) ||
  (match target.resolution with
   | some tr => tr ≠ "" && current.resolution ≠ "unknown" && current.resolution ≠ tr
   | none => false)

/-- The needs-encoding rule set as the source implements it, restated as a
flat disjunction: the target codec must additionally be a non-empty string,
and the target resolution must additionally differ from the literal
`preserve` sentinel. -/
def needsEncodingAmendedSpec (current : Specs) (target : TargetSpecs) : Bool :=
  (current.codec = "unknown") ||
  (pyTruthy target.codec && current.codec ≠ target.codec.getD "") ||
  (pyTruthy target.resolution && target.resolution.getD "" ≠ "preserve" &&
    current.resolution ≠ "unknown" && current.resolution ≠ target.resolution.getD "")

/-- The codec-transition table of the specification (§4.D): the savings
percentage for each listed source/target pair, `none` for the dash cells
and for pairs outside the table. -/
def savingsTableFractionPct (current target : String) : Option Nat :=
  if target = "av1" then
    if current = "av1" then some 0
    else if ["h265", "h264", "mpeg2", "mpeg4", "xvid", "wmv", "unknown"].contains current
    then some 50 else none
  else if target = "h265" then
    if current = "h265" then some 0
    else if ["h264", "mpeg2", "mpeg4", "xvid", "wmv", "unknown"].contains current
    then some 40 else none
  else if target = "h264" then
    if current = "h264" then some 0
    else if ["mpeg2", "mpeg4", "wmv", "xvid", "unknown"].contains current
    then some 30 else none
  else none

/-- The savings percentage the source actually applies
(`_estimate_savings`, restated as a fraction selector): 50 for any
non-av1 source targeting av1, 40 / 30 only for the explicitly listed
source codecs — an unknown source gets 0 towards h265 / h264, and xvid is
missing from the h264 row. -/
def savingsFractionPct (current target : String) : Nat :=
  if target = "av1" && !(["av1"].contains current) then 50
  else if target = "h265" &&
      ["h264", "mpeg4", "mpeg2", "xvid", "wmv"].contains current then 40
  else if target = "h264" &&
      ["mpeg4", "mpeg2", "wmv"].contains current then 30
  else 0

/-- The candidate rule as the specification words it: extension in the
allowlist AND not the system output pattern `*_optimized.*` (a name whose
stem ends in `_optimized`). -/
def candidateClaim (f : MediaFile) : Bool :=
  VIDEO_EXTENSIONS.contains (strToLower f.suffix) && !("_optimized".toList.isSuffixOf f.stem.toList)

/-! ## Theorems -/

/-- C5 (counterexample): the claim reads rule 3 as firing for every
non-empty target resolution, but `_needs_encoding` also treats the literal
string `preserve` as "no resolution constraint".  For a 1080p h264 file
and a target of the same codec with resolution `preserve`, the claimed rule
set answers true while the source answers false. -/
theorem c5_counterexample :
    needs_encoding
      { codec := "h264", resolution := "1920x1080", framerate := 24, audio_tracks := [] }
      { codec := some "h264", resolution := some "preserve" } = false ∧
    needsEncodingClaim
      { codec := "h264", resolution := "1920x1080", framerate := 24, audio_tracks := [] }
      { codec := some "h264", resolution := some "preserve" } = true := by
  decide

/-- C5 (amended): `_needs_encoding` returns true iff the current codec is
unknown, or the target codec is a non-empty string differing from the
current codec, or the target resolution is a non-empty string other than
the sentinel `preserve` while the current resolution is known and differs
from it; false otherwise. -/
theorem c5_needs_encoding_amended (current : Specs) (target : TargetSpecs) :
    needs_encoding current target = needsEncodingAmendedSpec current target := by
  rcases target with ⟨tc, tr⟩
  rcases tc with _ | c <;> rcases tr with _ | r <;>
    simp only [needs_encoding, needsEncodingAmendedSpec, pyTruthy, Option.getD] <;>
    by_cases h1 : current.codec = "unknown" <;>
    simp [h1, Bool.and_assoc]

/-- C7 (counterexample): the specification table has a row for source codec
`unknown` with fraction 0.40 towards target h265, but `_estimate_savings`
lists only `h264, mpeg4, mpeg2, xvid, wmv` for the h265 target, so an
unknown-codec 1000-byte file estimates 0 rather than 400 bytes. -/
theorem c7_counterexample :
    savingsTableFractionPct "unknown" "h265" = some 40 ∧
    estimate_savings 1000 "unknown" "h265" = 0 ∧
    estimate_savings 1000 "unknown" "h265" ≠ 1000 * 40 / 100 := by
  decide

/-- The savings estimate is the file size scaled by the selected
percentage, for every source/target pair. -/
theorem estimate_savings_eq_pct (size : Nat) (current target : String) :
    estimate_savings size current target = size * savingsFractionPct current target / 100 := by
  by_cases h1 : (target = "av1" && !(["av1"].contains current)) = true
  · simp only [estimate_savings, savingsFractionPct, h1, if_true]
  · by_cases h2 : (target = "h265" &&
        ["h264", "mpeg4", "mpeg2", "xvid", "wmv"].contains current) = true
    · simp only [estimate_savings, savingsFractionPct, h1, h2, if_true, if_false,
        Bool.false_eq_true]
    · by_cases h3 : (target = "h264" &&
          ["mpeg4", "mpeg2", "wmv"].contains current) = true
      · simp only [estimate_savings, savingsFractionPct, h1, h2, h3, if_true, if_false,
          Bool.false_eq_true]
      · simp only [estimate_savings, savingsFractionPct, h1, h2, h3, if_false,
          Bool.false_eq_true, Nat.mul_zero, Nat.zero_div]

/-- C7 (amended): the savings estimate equals the file size scaled by the
fraction the source selects: 0.50 for any non-av1 source towards av1
(including unknown), 0.40 towards h265 and 0.30 towards h264 only for the
explicitly listed known source codecs — an unknown source estimates 0
towards h265 and h264. -/
theorem c7_estimate_savings_amended (size : Nat) (current target : String) :
    estimate_savings size current target = size * savingsFractionPct current target / 100 ∧
    estimate_savings size "unknown" "av1" = size * 50 / 100 ∧
    estimate_savings size "unknown" "h265" = 0 ∧
    estimate_savings size "unknown" "h264" = 0 := by
  have h50 : savingsFractionPct "unknown" "av1" = 50 := by decide
  have h265 : savingsFractionPct "unknown" "h265" = 0 := by decide
  have h264 : savingsFractionPct "unknown" "h264" = 0 := by decide
  refine ⟨estimate_savings_eq_pct size current target, ?_, ?_, ?_⟩
  · rw [estimate_savings_eq_pct, h50]
  · rw [estimate_savings_eq_pct, h265]
    simp
  · rw [estimate_savings_eq_pct, h264]
    simp

/-- C8: `analyze_file` never returns `None`; in particular when the ffprobe
strategy is unavailable or failed and the HandBrake strategy is unavailable
or failed, it returns the `_get_basic_file_info` record: codec `unknown`,
resolution `unknown`, framerate 0 and an empty audio-track list. -/
theorem c8_analyze_file_never_none (ffAvail : Bool) (ffRes : Option Specs)
    (hbAvail : Bool) (hbRes : Option Specs) :
    analyze_file ffAvail ffRes hbAvail hbRes ≠ none ∧
    ((ffAvail = false ∨ ffRes = none) → (hbAvail = false ∨ hbRes = none) →
      analyze_file ffAvail ffRes hbAvail hbRes =
        some { codec := "unknown", resolution := "unknown",
               framerate := 0, audio_tracks := [] }) := by
  constructor
  · cases ffAvail <;> cases hbAvail <;> rcases ffRes with _ | f <;> rcases hbRes with _ | h <;>
      simp [analyze_file, get_basic_file_info] <;> split <;> simp
  · intro h1 h2
    have hff : (if ffAvail then ffRes else none) = none := by
      rcases h1 with h | h <;> simp [h]
    have hhb : (if hbAvail then hbRes else none) = none := by
      rcases h2 with h | h <;> simp [h]
    simp [analyze_file, hff, hhb, get_basic_file_info]

/-- C8 (witness): both strategies unavailable at a concrete input. -/
theorem c8_witness :
    analyze_file false none false none ≠ none ∧
    analyze_file false none false none =
      some { codec := "unknown", resolution := "unknown",
             framerate := 0, audio_tracks := [] } :=
  ⟨(c8_analyze_file_never_none false none false none).1,
   (c8_analyze_file_never_none false none false none).2 (Or.inl rfl) (Or.inl rfl)⟩

/-- C6: for every instant of the week and every schedule configuration,
`is_within_schedule` answers true exactly when the schedule is enabled, the
weekday is among the configured days, and — with the effective start/end
resolved — the time of day lies in `[start, end]` when `start ≤ end`, or in
the midnight-spanning union `time ≥ start ∨ time ≤ end` when `end < start`. -/
theorem c6_within_window (cfg : ScheduleConfig) (winActive : Option (Nat × Nat))
    (weekday nowSec : Nat) :
    is_within_schedule cfg winActive weekday nowSec = true ↔
      withinWindowSpec cfg.enabled cfg.days (effectiveWindow cfg winActive).1
        (effectiveWindow cfg winActive).2 weekday nowSec := by
  unfold is_within_schedule withinWindowSpec
  by_cases hen : cfg.enabled
  · by_cases hd : cfg.days.contains weekday
    · have hd' : weekday ∈ cfg.days := by
        simpa using hd
      by_cases hse : (effectiveWindow cfg winActive).1 ≤ (effectiveWindow cfg winActive).2
      · simp [hen, hd, hd', hse]
      · have hlt : (effectiveWindow cfg winActive).2 < (effectiveWindow cfg winActive).1 :=
          Nat.lt_of_not_le hse
        simp [hen, hd, hd', hse]
        omega
    · have hd' : weekday ∉ cfg.days := by
        simpa using hd
      simp [hen, hd, hd']
  · simp [hen]

/-- C1 (counterexample): a finalise attempt where the output exists, the
delete of the original succeeds, and the rename then raises (for example a
rename collision).  The item ends `failed` with an error message — yet the
original input file no longer exists, contradicting the claim that a failed
finalise never loses the original. -/
theorem c1_counterexample :
    (finalize_encoding
        { outputExists := true, unlinkError := none,
          renameError := some "rename collision", historyError := none, now := 7 }
        (mkQueueRow 1 "m.mkv" "processing" 4000 2000)).item.status = "failed" ∧
    (finalize_encoding
        { outputExists := true, unlinkError := none,
          renameError := some "rename collision", historyError := none, now := 7 }
        (mkQueueRow 1 "m.mkv" "processing" 4000 2000)).item.error_message.isSome = true ∧
    (finalize_encoding
        { outputExists := true, unlinkError := none,
          renameError := some "rename collision", historyError := none, now := 7 }
        (mkQueueRow 1 "m.mkv" "processing" 4000 2000)).originalExists = false := by
  decide

/-- C1 (amended): every finalise attempt that ends with the item failed
records an explanatory error message; the original input file still exists
whenever the failure is the output being missing or the delete step itself
raising — but once the delete of the original has succeeded, any later
failure (rename or history insert raising) marks the item failed while the
original no longer exists. -/
theorem c1_finalize_amended (env : FinalizeEnv) (item : QueueItem) :
    ((finalize_encoding env item).item.status = "failed" →
      (finalize_encoding env item).item.error_message.isSome = true) ∧
    (env.outputExists = false ∨ env.unlinkError.isSome = true →
      (finalize_encoding env item).originalExists = true) ∧
    (env.outputExists = true → env.unlinkError = none →
      (finalize_encoding env item).originalExists = false) := by
  rcases env with ⟨oe, ue, re, he, now⟩
  cases oe <;> rcases ue with _ | u <;> rcases re with _ | r <;> rcases he with _ | h <;>
    simp [finalize_encoding, applyTransition]

/-- C1 (witness): the amended statement at two concrete fault patterns —
output missing (original kept), and rename raising after a successful
delete (original lost). -/
theorem c1_witness :
    (finalize_encoding
        { outputExists := false, unlinkError := none,
          renameError := none, historyError := none, now := 3 }
        (mkQueueRow 1 "m.mkv" "processing" 4000 2000)).originalExists = true ∧
    (finalize_encoding
        { outputExists := true, unlinkError := none,
          renameError := some "boom", historyError := none, now := 3 }
        (mkQueueRow 1 "m.mkv" "processing" 4000 2000)).originalExists = false :=
  ⟨(c1_finalize_amended _ _).2.1 (Or.inl rfl),
   (c1_finalize_amended _ _).2.2 rfl rfl⟩

/-- C4 (counterexample): a fresh pending item whose transcoder exits with
code 1.  `start` marks it failed with an error message but stamps no
`completed_at`, so the claimed invariant `completed_at set ⇔ status ∈
(completed, failed)` does not hold after the transition. -/
theorem c4_counterexample :
    ¬ completedAtInvariant
        (applyTransition (mkQueueRow 1 "m.mkv" "pending" 4000 2000) (.nonZeroExit 1)) ∧
    (applyTransition (mkQueueRow 1 "m.mkv" "pending" 4000 2000)
        (.nonZeroExit 1)).status = "failed" ∧
    (applyTransition (mkQueueRow 1 "m.mkv" "pending" 4000 2000)
        (.nonZeroExit 1)).completed_at = none := by
  unfold completedAtInvariant
  decide

/-- C4 (amended): only the successful-finalise transition stamps
`completed_at` (and it sets status `completed`); every failure transition
(non-zero exit, exception, output missing, finalise error, manual stop)
sets status `failed` with an error message but leaves `completed_at`
unchanged.  Hence a change of `completed_at` implies the new status is
`completed`, and a failed item stamped from a fresh row has no
`completed_at`. -/
theorem c4_completed_at_amended (item : QueueItem) (t : EngineTransition) :
    (isFailureTransition t = true →
      (applyTransition item t).status = "failed" ∧
      (applyTransition item t).completed_at = item.completed_at ∧
      (applyTransition item t).error_message.isSome = true) ∧
    ((applyTransition item t).completed_at ≠ item.completed_at →
      (applyTransition item t).status = "completed" ∧
      ∃ now, t = .finalizeSuccess now ∧
        (applyTransition item t).completed_at = some now) := by
  cases t <;> simp [applyTransition, isFailureTransition]

/-- C4 (witness): the amended statement at a concrete failure transition. -/
theorem c4_witness :
    (applyTransition (mkQueueRow 1 "m.mkv" "pending" 4000 2000) .manualStop).status = "failed" ∧
    (applyTransition (mkQueueRow 1 "m.mkv" "pending" 4000 2000) .manualStop).completed_at =
      (mkQueueRow 1 "m.mkv" "pending" 4000 2000).completed_at ∧
    (applyTransition (mkQueueRow 1 "m.mkv" "pending" 4000 2000)
        .manualStop).error_message.isSome = true :=
  (c4_completed_at_amended (mkQueueRow 1 "m.mkv" "pending" 4000 2000) .manualStop).1 rfl

/-- The keyword `current_specs` is not a parameter of `_estimate_savings`,
so the savings call made by the watcher raises for every input. -/
theorem watcher_call_estimate_savings_raises (file_size : Nat)
    (current_codec target_codec : String) :
    watcher_call_estimate_savings file_size current_codec target_codec =
      .error "TypeError: _estimate_savings got an unexpected keyword argument current_specs" := by
  unfold watcher_call_estimate_savings
  have h : pyKeywordsAccepted estimate_savings_params ["current_specs"] = false := by decide
  rw [h]
  rfl

/-- The per-file body of `_queue_new_files` never queues: every path is
either skipped before the savings call, or hits the `TypeError` from the
savings call, which the per-file handler swallows. -/
theorem watcher_queue_one_file_fixed (env : WatcherEnv) (profile : Profile)
    (queued_paths : List String) (acc : List QueueItem × Nat) (path : String) :
    watcher_queue_one_file env profile queued_paths acc path = acc := by
  rcases acc with ⟨queue, count⟩
  unfold watcher_queue_one_file
  by_cases hc : queued_paths.contains path = true <;>
    rcases hs : env.size path with msg | file_size <;>
    simp [hc, hs, watcher_call_estimate_savings_raises]

/-- C2 (code bug): `FolderWatcher._queue_new_files` inserts nothing — for
every environment, queue state and set of newly appeared paths it returns
the queue unchanged with a queued count of zero, because its savings call
passes the keyword argument `current_specs` which
`MediaScanner._estimate_savings` does not accept; the resulting `TypeError`
is caught by the per-file handler.  The claim (and the specification) says
exactly one item is inserted per new path that needs encoding. -/
theorem c2_watcher_queues_nothing (env : WatcherEnv) (queue : List QueueItem)
    (new_files : List String) :
    queue_new_files env queue new_files = (queue, 0) := by
  unfold queue_new_files
  cases env.profile with
  | none => rfl
  | some profile =>
    induction new_files with
    | nil => rfl
    | cons p rest ih =>
      simpa [List.foldl_cons, watcher_queue_one_file_fixed] using ih

/-- Appending rows for other paths preserves the rows filtered for path
`p`, and `scan_process_file` never inserts a row for a path that already
has one in the queue. -/
theorem scan_process_file_filter_eq (env : FileEnv) (profile : Profile)
    (acc : List QueueItem × Nat) (path p : String)
    (h : acc.1.any (fun item => item.file_path = p) = true) :
    (scan_process_file env profile acc path).1.filter (fun item => item.file_path = p) =
      acc.1.filter (fun item => item.file_path = p) ∧
    (scan_process_file env profile acc path).1.any (fun item => item.file_path = p) = true := by
  unfold scan_process_file
  rcases acc with ⟨queue, count⟩
  by_cases hdup : queue.any (fun item => item.file_path = path) = true
  · simp [hdup, h]
  · have hne : path ≠ p := by
      intro he
      rw [he] at hdup
      exact hdup h
    simp only [hdup, Bool.false_eq_true, if_false]
    rcases env.probe path with _ | specs
    · exact ⟨rfl, h⟩
    · simp only
      split
      · exact ⟨rfl, h⟩
      · simp only [add_to_queue, queue_file_path_unique, Bool.false_and,
          Bool.false_eq_true, if_false]
        constructor
        · rw [List.filter_append]
          simp [mkQueueRow, hne]
        · rw [List.any_append]
          simp [h]

/-- C3: if the queue already holds an item for a path in a non-terminal
status (`pending`, `processing`, `paused` or `permission_error`), a
`scan_root` run inserts no further item for that path: the rows carrying
that path are exactly the ones that were already there.  (The source skips
a candidate as soon as any row with its path exists.) -/
theorem c3_scan_root_no_duplicate (env : FileEnv) (enabled : Bool)
    (profile : Option Profile) (files : List MediaFile) (queue : List QueueItem)
    (p : String)
    (h : ∃ item ∈ queue, item.file_path = p ∧ item.status ∈ nonTerminalStatuses) :
    (scan_root env enabled profile files queue).1.filter (fun item => item.file_path = p) =
      queue.filter (fun item => item.file_path = p) := by
  have hany : queue.any (fun item => item.file_path = p) = true := by
    rcases h with ⟨item, hmem, hpath, -⟩
    exact List.any_of_mem hmem (by simpa using hpath)
  unfold scan_root
  by_cases he : enabled
  · simp only [he, not_true, if_false, Bool.not_true, Bool.false_eq_true]
    cases profile with
    | none => simp
    | some prof =>
      simp only
      have : ∀ (fs : List MediaFile) (acc : List QueueItem × Nat),
          acc.1.any (fun item => item.file_path = p) = true →
          (fs.foldl (fun acc f => scan_process_file env prof acc f.path) acc).1.filter
              (fun item => item.file_path = p) =
            acc.1.filter (fun item => item.file_path = p) := by
        intro fs
        induction fs with
        | nil => intro acc hacc; rfl
        | cons f rest ih =>
          intro acc hacc
          rw [List.foldl_cons]
          have step := scan_process_file_filter_eq env prof acc f.path p hacc
          rw [ih _ step.2, step.1]
      exact this (discover_video_files files) (queue, 0) hany
  · simp [he]

/-- C3 (witness): a queue holding a pending item for `a.mkv`; re-scanning a
root whose enumeration contains `a.mkv` leaves the rows for that path
untouched. -/
theorem c3_witness :
    (scan_root
        ⟨fun _ => "ok",
         fun _ => some { codec := "h264", resolution := "1920x1080",
                         framerate := 24, audio_tracks := [] },
         fun _ => 1000⟩
        true
        (some { codec := "av1", resolution := none, framerate := none, audio_codec := "aac" })
        [{ stem := "a", suffix := ".mkv" }]
        [mkQueueRow 1 "a.mkv" "pending" 1000 500]).1.filter
        (fun item => item.file_path = "a.mkv") =
      [mkQueueRow 1 "a.mkv" "pending" 1000 500].filter
        (fun item => item.file_path = "a.mkv") :=
  c3_scan_root_no_duplicate _ _ _ _ _ _
    ⟨mkQueueRow 1 "a.mkv" "pending" 1000 500,
     List.mem_singleton.mpr rfl, rfl, by decide⟩

/-- C9 (counterexample): the file `movie_optimized.mkv` matches the system
output pattern, so the claimed candidate rule rejects it — but
`discover_video_files` keeps it (there is no `_optimized` filter in the
scanner) and `scan_root` inserts a queue item for it when it needs
encoding. -/
theorem c9_counterexample :
    candidateClaim { stem := "movie_optimized", suffix := ".mkv" } = false ∧
    discover_video_files [{ stem := "movie_optimized", suffix := ".mkv" }] =
      [{ stem := "movie_optimized", suffix := ".mkv" }] ∧
    (scan_root
        ⟨fun _ => "ok",
         fun _ => some { codec := "h264", resolution := "1920x1080",
                         framerate := 24, audio_tracks := [] },
         fun _ => 1000⟩
        true
        (some { codec := "av1", resolution := none, framerate := none, audio_codec := "aac" })
        [{ stem := "movie_optimized", suffix := ".mkv" }] []).1.map QueueItem.file_path =
      ["movie_optimized.mkv"] := by
  decide

/-- C9 (amended): the scan pipeline treats a file as a candidate iff its
lowercased extension is in the allowlist — the `*_optimized.*` output
pattern is not excluded there (such files can be inserted by `scan_root`);
only the folder watcher enumeration additionally skips files whose stem
contains `_optimized`. -/
theorem c9_candidate_amended (files : List MediaFile) (f : MediaFile) :
    (f ∈ discover_video_files files ↔
      f ∈ files ∧ VIDEO_EXTENSIONS.contains (strToLower f.suffix) = true) ∧
    (∀ exts : List String, f ∈ watcher_scan_directory files exts ↔
      f ∈ files ∧ exts.contains (strToLower f.suffix) = true ∧
        strContainsSub f.stem "_optimized" = false) := by
  constructor
  · simp [discover_video_files, List.mem_filter]
  · intro exts
    simp [watcher_scan_directory, List.mem_filter, and_assoc]

/-- C10: `add_to_queue` performs no per-path deduplication: with a row for
the same path already present (in any status), the insert still succeeds,
appending a fresh row, after which at least two rows carry that path.  The
schema declares no unique constraint on `queue.file_path`
(`queue_file_path_unique = false`), so the non-terminal path-uniqueness
invariant rests entirely on callers checking the queue first. -/
theorem c10_add_to_queue_no_unique (table : List QueueItem) (p status : String)
    (size savings : Nat) (h : ∃ r ∈ table, r.file_path = p) :
    add_to_queue table (some p) status size savings =
      .ok (table ++ [mkQueueRow (nextId table) p status size savings]) ∧
    (table ++ [mkQueueRow (nextId table) p status size savings]).length =
      table.length + 1 ∧
    2 ≤ ((table ++ [mkQueueRow (nextId table) p status size savings]).filter
        (fun r => r.file_path = p)).length := by
  refine ⟨?_, by simp, ?_⟩
  · unfold add_to_queue
    simp [queue_file_path_unique]
  · rcases h with ⟨r, hmem, hpath⟩
    have h1 : r ∈ table.filter (fun r => r.file_path = p) :=
      List.mem_filter.mpr ⟨hmem, by simpa using hpath⟩
    have h2 : 0 < (table.filter (fun r => r.file_path = p)).length :=
      List.length_pos_of_mem h1
    have h3 : ((table ++ [mkQueueRow (nextId table) p status size savings]).filter
        (fun r => r.file_path = p)).length =
        (table.filter (fun r => r.file_path = p)).length + 1 := by
      rw [List.filter_append]
      simp [mkQueueRow]
    omega

/-- C10 (witness): inserting `a.mkv` a second time while a pending row for
`a.mkv` exists succeeds and yields two rows with that path. -/
theorem c10_witness :
    add_to_queue [mkQueueRow 1 "a.mkv" "pending" 1000 500] (some "a.mkv") "pending" 1000 500 =
      .ok ([mkQueueRow 1 "a.mkv" "pending" 1000 500] ++
        [mkQueueRow (nextId [mkQueueRow 1 "a.mkv" "pending" 1000 500]) "a.mkv" "pending" 1000 500]) ∧
    ([mkQueueRow 1 "a.mkv" "pending" 1000 500] ++
      [mkQueueRow (nextId [mkQueueRow 1 "a.mkv" "pending" 1000 500]) "a.mkv" "pending" 1000 500]).length =
      [mkQueueRow 1 "a.mkv" "pending" 1000 500].length + 1 ∧
    2 ≤ (([mkQueueRow 1 "a.mkv" "pending" 1000 500] ++
        [mkQueueRow (nextId [mkQueueRow 1 "a.mkv" "pending" 1000 500]) "a.mkv" "pending" 1000 500]).filter
        (fun r => r.file_path = "a.mkv")).length :=
  c10_add_to_queue_no_unique _ _ _ _ _
    ⟨mkQueueRow 1 "a.mkv" "pending" 1000 500, List.mem_singleton.mpr rfl, rfl⟩

end Optimizarr
